import Mathlib

/-!
Verification of the OpenChat Tauri backend (`src-tauri/src/lib.rs`).

The file exposes two commands:
  * `greet(name)` - pure string formatting;
  * `fetch_url(url)` - parse the URL, check the scheme, build a
    `reqwest::blocking::Client` with a 20 s timeout and a fixed user agent,
    issue a GET, check the status, and decode the body as text.

The external world (the `url` crate parser, the reqwest client builder, the
network, and the body decoder) is modelled by an environment record
`NetEnv`; `fetch_url` is translated from the Rust source over that
environment, instrumented with a trace of the gates it actually evaluates
so that claims about evaluation order and about "no network operation is
performed" become statements about the trace.
-/

namespace OpenChat

/-- `greet` from `lib.rs`:
`format!("Hello, {}! You've been greeted from Rust!", name)`. -/
def greet (name : String) : String :=
  "Hello, " ++ name ++ "! You\x27ve been greeted from Rust!"

/-- A parsed URL (`reqwest::Url`).  `fetch_url` only ever inspects the
scheme; the remaining components (host, path, query, ...) are kept as one
opaque field that is handed unchanged to the GET request. -/
structure ParsedUrl where
  scheme : String
  rest : String
  deriving DecidableEq, Repr

/-- The configuration `fetch_url` passes to `Client::builder()`:
`.timeout(Duration::from_secs(20)).user_agent("OpenChat-WebSearch/1.0")`. -/
structure ClientConfig where
  timeoutSecs : Nat
  userAgent : String
  deriving DecidableEq, Repr

/-- An HTTP response as `fetch_url` observes it: the numeric status code
(`response.status()`, displayed here by its number) and the outcome of
decoding the body as text (`response.text()`). -/
structure HttpResponse where
  status : Nat
  text : Except String String
  deriving Repr

/-- The environment of one `fetch_url` call: the outcomes of the four
external operations it delegates to.  `send` depends on the client
configuration because the timeout and the user agent can influence the
response. -/
structure NetEnv where
  parse : String → Except String ParsedUrl
  buildClient : ClientConfig → Except String Unit
  send : ClientConfig → ParsedUrl → Except String HttpResponse

/-- The six sequential gates of `fetch_url`, in source order. -/
inductive Gate
  | parseUrl
  | schemeCheck
  | buildClient
  | sendRequest
  | statusCheck
  | readBody
  deriving DecidableEq, Repr

/-- Observable events of one `fetch_url` call, recorded in the order the
gates are evaluated.  `requestSent` marks the one network operation. -/
inductive Event
  | parseAttempted
  | schemeChecked (s : String)
  | buildAttempted (cfg : ClientConfig)
  | requestSent (cfg : ClientConfig) (u : ParsedUrl)
  | statusChecked (code : Nat)
  | bodyReadAttempted
  deriving DecidableEq, Repr

/-- Which gate an event belongs to. -/
def gateOf : Event → Gate
  | Event.parseAttempted => Gate.parseUrl
  | Event.schemeChecked _ => Gate.schemeCheck
  | Event.buildAttempted _ => Gate.buildClient
  | Event.requestSent _ _ => Gate.sendRequest
  | Event.statusChecked _ => Gate.statusCheck
  | Event.bodyReadAttempted => Gate.readBody

/-- The fixed gate order of `fetch_url`. -/
def gateOrder : List Gate :=
  [Gate.parseUrl, Gate.schemeCheck, Gate.buildClient, Gate.sendRequest,
   Gate.statusCheck, Gate.readBody]

/-- The configuration `fetch_url` passes to `Client::builder()`:
`.timeout(Duration::from_secs(20)).user_agent("OpenChat-WebSearch/1.0")`. -/
def fetchCfg : ClientConfig :=
  { timeoutSecs := 20, userAgent := "OpenChat-WebSearch/1.0" }

/-- The tail of `fetch_url` after the parse and scheme gates have passed:
client build (`"Failed to build HTTP client: {err}"`), GET send
(`"Request failed: {err}"`), the `is_success` status check (200-299,
`"Request failed with status {code}"`, body discarded on failure), and
`.text()` (`"Failed to read response body: {err}"`). -/
def fetchAfterScheme (env : NetEnv) (parsed : ParsedUrl) :
    Except String String × List Event :=
  match env.buildClient fetchCfg with
  | Except.error err =>
      (Except.error ("Failed to build HTTP client: " ++ err),
       [Event.parseAttempted, Event.schemeChecked parsed.scheme,
        Event.buildAttempted fetchCfg])
  | Except.ok _ =>
    match env.send fetchCfg parsed with
    | Except.error err =>
        (Except.error ("Request failed: " ++ err),
         [Event.parseAttempted, Event.schemeChecked parsed.scheme,
          Event.buildAttempted fetchCfg, Event.requestSent fetchCfg parsed])
    | Except.ok resp =>
      if 200 ≤ resp.status ∧ resp.status ≤ 299 then
        match resp.text with
        | Except.error err =>
            (Except.error ("Failed to read response body: " ++ err),
             [Event.parseAttempted, Event.schemeChecked parsed.scheme,
              Event.buildAttempted fetchCfg, Event.requestSent fetchCfg parsed,
              Event.statusChecked resp.status, Event.bodyReadAttempted])
        | Except.ok body =>
            (Except.ok body,
             [Event.parseAttempted, Event.schemeChecked parsed.scheme,
              Event.buildAttempted fetchCfg, Event.requestSent fetchCfg parsed,
              Event.statusChecked resp.status, Event.bodyReadAttempted])
      else
        (Except.error ("Request failed with status " ++ toString resp.status),
         [Event.parseAttempted, Event.schemeChecked parsed.scheme,
          Event.buildAttempted fetchCfg, Event.requestSent fetchCfg parsed,
          Event.statusChecked resp.status])

/-- `fetch_url` from `lib.rs`, translated line by line over a `NetEnv`.
Returns the `Result<String, String>` together with the trace of evaluated
gates.  Mirrors: parse (`Url::parse(&url)` with `"Invalid URL: {err}"`),
the scheme match (`"http" | "https"` else the fixed message), then the
client build / send / status / body-read chain of `fetchAfterScheme`. -/
def fetch_url (env : NetEnv) (url : String) : Except String String × List Event :=
  match env.parse url with
  | Except.error err =>
      (Except.error ("Invalid URL: " ++ err), [Event.parseAttempted])
  | Except.ok parsed =>
    if parsed.scheme = "http" ∨ parsed.scheme = "https" then
      fetchAfterScheme env parsed
    else
      (Except.error "Only http and https schemes are allowed",
       [Event.parseAttempted, Event.schemeChecked parsed.scheme])

/-- Boolean success classification of a `fetch_url` result. -/
def isOkB : Except String String → Bool
  | Except.ok _ => true
  | Except.error _ => false

/-- An environment in which every external operation is constant: the
parser always answers `p`, the builder `b`, the network `s`.  Used to
instantiate the theorems on concrete scenarios. -/
def constEnv (p : Except String ParsedUrl) (b : Except String Unit)
    (s : Except String HttpResponse) : NetEnv :=
  { parse := fun _ => p, buildClient := fun _ => b, send := fun _ _ => s }

/-- A healthy endpoint: any input parses as an https URL and the server
answers 200 with body "ok". -/
def okEnv : NetEnv :=
  constEnv (Except.ok { scheme := "https", rest := "example.com/" })
    (Except.ok ()) (Except.ok { status := 200, text := Except.ok "ok" })

/-- An environment whose parser rejects the input the way the url crate
rejects a relative string. -/
def badParseEnv : NetEnv :=
  constEnv (Except.error "relative URL without a base") (Except.ok ())
    (Except.ok { status := 200, text := Except.ok "ok" })

/-- An environment whose parser yields a `file` scheme URL. -/
def fileSchemeEnv : NetEnv :=
  constEnv (Except.ok { scheme := "file", rest := "/etc/passwd" }) (Except.ok ())
    (Except.ok { status := 200, text := Except.ok "ok" })

/-- An environment whose endpoint answers 404. -/
def notFoundEnv : NetEnv :=
  constEnv (Except.ok { scheme := "https", rest := "example.com/missing" })
    (Except.ok ()) (Except.ok { status := 404, text := Except.ok "gone" })

/-- An environment whose response body fails to decode as text. -/
def badBodyEnv : NetEnv :=
  constEnv (Except.ok { scheme := "https", rest := "example.com/" })
    (Except.ok ()) (Except.ok { status := 200, text := Except.error "invalid utf-8" })

/-- An environment whose client builder fails. -/
def badBuildEnv : NetEnv :=
  constEnv (Except.ok { scheme := "https", rest := "example.com/" })
    (Except.error "tls backend init failed")
    (Except.ok { status := 200, text := Except.ok "ok" })

/-- The sample parsed URL `okEnv`'s parser returns. -/
def okParsed : ParsedUrl := { scheme := "https", rest := "example.com/" }

/-- Like `okEnv` but the dynamic endpoint serves a different body. -/
def okEnvDynamic : NetEnv :=
  constEnv (Except.ok { scheme := "https", rest := "example.com/" })
    (Except.ok ()) (Except.ok { status := 200, text := Except.ok "dynamic body" })

/-- Agreement of two send outcomes up to body content: both fail at the
transport level, or both deliver a response with the same status code and
the same decodability of the body (a deterministic endpoint whose payload
may vary). -/
def SendAgree : Except String HttpResponse → Except String HttpResponse → Prop
  | Except.error _, Except.error _ => True
  | Except.ok r1, Except.ok r2 =>
      r1.status = r2.status ∧ isOkB r1.text = isOkB r2.text
  | _, _ => False

/-- Unfolding lemma: once the input parses and the scheme is allowed,
`fetch_url` is the build/send/status/read chain. -/
theorem fetch_url_parse_ok (env : NetEnv) (url : String) (parsed : ParsedUrl)
    (h : env.parse url = Except.ok parsed)
    (hs : parsed.scheme = "http" ∨ parsed.scheme = "https") :
    fetch_url env url = fetchAfterScheme env parsed := by
  simp only [fetch_url, h]
  rw [if_pos hs]

/-- Exhaustive characterisation of `fetch_url`: exactly one of the seven
terminal branches happens, and in each the result and the full trace are
given explicitly. -/
theorem fetch_url_cases (env : NetEnv) (url : String) :
    (∃ e, env.parse url = Except.error e ∧
      fetch_url env url = (Except.error ("Invalid URL: " ++ e), [Event.parseAttempted])) ∨
    (∃ parsed, env.parse url = Except.ok parsed ∧
      ((parsed.scheme ≠ "http" ∧ parsed.scheme ≠ "https" ∧
        fetch_url env url = (Except.error "Only http and https schemes are allowed",
          [Event.parseAttempted, Event.schemeChecked parsed.scheme])) ∨
      ((parsed.scheme = "http" ∨ parsed.scheme = "https") ∧
        ((∃ e, env.buildClient fetchCfg = Except.error e ∧
            fetch_url env url = (Except.error ("Failed to build HTTP client: " ++ e),
              [Event.parseAttempted, Event.schemeChecked parsed.scheme,
               Event.buildAttempted fetchCfg])) ∨
         (env.buildClient fetchCfg = Except.ok () ∧
          ((∃ e, env.send fetchCfg parsed = Except.error e ∧
              fetch_url env url = (Except.error ("Request failed: " ++ e),
                [Event.parseAttempted, Event.schemeChecked parsed.scheme,
                 Event.buildAttempted fetchCfg, Event.requestSent fetchCfg parsed])) ∨
           (∃ resp, env.send fetchCfg parsed = Except.ok resp ∧
             ((¬ (200 ≤ resp.status ∧ resp.status ≤ 299) ∧
                fetch_url env url =
                  (Except.error ("Request failed with status " ++ toString resp.status),
                   [Event.parseAttempted, Event.schemeChecked parsed.scheme,
                    Event.buildAttempted fetchCfg, Event.requestSent fetchCfg parsed,
                    Event.statusChecked resp.status])) ∨
              ((200 ≤ resp.status ∧ resp.status ≤ 299) ∧
                ((∃ e, resp.text = Except.error e ∧
                    fetch_url env url =
                      (Except.error ("Failed to read response body: " ++ e),
                       [Event.parseAttempted, Event.schemeChecked parsed.scheme,
                        Event.buildAttempted fetchCfg, Event.requestSent fetchCfg parsed,
                        Event.statusChecked resp.status, Event.bodyReadAttempted])) ∨
                 (∃ b, resp.text = Except.ok b ∧
                    fetch_url env url =
                      (Except.ok b,
                       [Event.parseAttempted, Event.schemeChecked parsed.scheme,
                        Event.buildAttempted fetchCfg, Event.requestSent fetchCfg parsed,
                        Event.statusChecked resp.status, Event.bodyReadAttempted])))))))))))) := by
  rcases hp : env.parse url with e | parsed
  · exact Or.inl ⟨e, rfl, by simp [fetch_url, hp]⟩
  · refine Or.inr ⟨parsed, rfl, ?_⟩
    by_cases hs : parsed.scheme = "http" ∨ parsed.scheme = "https"
    · refine Or.inr ⟨hs, ?_⟩
      have hrw := fetch_url_parse_ok env url parsed hp hs
      rcases hb : env.buildClient fetchCfg with e | u
      · exact Or.inl ⟨e, rfl, by rw [hrw]; unfold fetchAfterScheme; simp [hb]⟩
      · refine Or.inr ⟨by simp [hb], ?_⟩
        rcases hsend : env.send fetchCfg parsed with e | resp
        · exact Or.inl ⟨e, rfl, by rw [hrw]; unfold fetchAfterScheme; simp [hb, hsend]⟩
        · refine Or.inr ⟨resp, rfl, ?_⟩
          by_cases hst : 200 ≤ resp.status ∧ resp.status ≤ 299
          · refine Or.inr ⟨hst, ?_⟩
            rcases ht : resp.text with e | b
            · exact Or.inl ⟨e, rfl,
                by rw [hrw]; unfold fetchAfterScheme; simp [hb, hsend, hst, ht]⟩
            · exact Or.inr ⟨b, rfl,
                by rw [hrw]; unfold fetchAfterScheme; simp [hb, hsend, hst, ht]⟩
          · exact Or.inl ⟨hst,
              by rw [hrw]; unfold fetchAfterScheme; simp [hb, hsend, hst]⟩
    · push_neg at hs
      refine Or.inl ⟨hs.1, hs.2, ?_⟩
      have hcond : ¬ (parsed.scheme = "http" ∨ parsed.scheme = "https") := by
        rintro (hh | hh)
        · exact hs.1 hh
        · exact hs.2 hh
      simp only [fetch_url, hp]
      rw [if_neg hcond]

/-- Claim C8: `greet` is deterministic pure string formatting: for every
name it returns exactly "Hello, {name}! You've been greeted from Rust!",
and in particular `greet "World"` is exactly the string the testable
property fixes. -/
theorem greet_formats_exactly (name : String) :
    greet name = "Hello, " ++ name ++ "! You\x27ve been greeted from Rust!" ∧
    greet "World" = "Hello, World! You\x27ve been greeted from Rust!" :=
  ⟨rfl, rfl⟩

/-- Claim C2: an input that fails URL parsing yields the Invalid-URL
error carrying the parser diagnostic, and the trace stops at the parse
gate, so no network request is issued. -/
theorem fetch_url_invalid_url (env : NetEnv) (url e : String)
    (h : env.parse url = Except.error e) :
    (fetch_url env url).1 = Except.error ("Invalid URL: " ++ e) ∧
    (fetch_url env url).2 = [Event.parseAttempted] := by
  simp [fetch_url, h]

/-- Witness for C2: `"not a url"` against a parser that rejects it. -/
theorem fetch_url_invalid_url_witness :
    (fetch_url badParseEnv "not a url").1 =
      Except.error ("Invalid URL: " ++ "relative URL without a base") ∧
    (fetch_url badParseEnv "not a url").2 = [Event.parseAttempted] :=
  fetch_url_invalid_url badParseEnv "not a url" "relative URL without a base" rfl

/-- Claim C1: the scheme gate.  When the parsed scheme is neither the
literal "http" nor "https", `fetch_url` returns the fixed
scheme-not-allowed error and the trace stops at the scheme gate, so no
network operation happens; when the parsed scheme is "http" or "https"
the gate passes and the client-build gate is reached. -/
theorem fetch_url_scheme_gate (env : NetEnv) (url : String) (parsed : ParsedUrl)
    (h : env.parse url = Except.ok parsed) :
    (parsed.scheme ≠ "http" → parsed.scheme ≠ "https" →
      (fetch_url env url).1 = Except.error "Only http and https schemes are allowed" ∧
      (fetch_url env url).2 = [Event.parseAttempted, Event.schemeChecked parsed.scheme]) ∧
    (parsed.scheme = "http" ∨ parsed.scheme = "https" →
      Event.buildAttempted fetchCfg ∈ (fetch_url env url).2) := by
  constructor
  · intro h1 h2
    have hcond : ¬ (parsed.scheme = "http" ∨ parsed.scheme = "https") := by
      rintro (hh | hh)
      · exact h1 hh
      · exact h2 hh
    simp only [fetch_url, h]
    rw [if_neg hcond]
    exact ⟨rfl, rfl⟩
  · intro hs
    rw [fetch_url_parse_ok env url parsed h hs]
    unfold fetchAfterScheme
    rcases env.buildClient fetchCfg with e | u
    · simp
    · rcases env.send fetchCfg parsed with e | resp
      · simp
      · by_cases hst : 200 ≤ resp.status ∧ resp.status ≤ 299
        · rcases ht : resp.text with e | b <;> simp [hst, ht]
        · simp [hst]

/-- Witness for C1: `file:///etc/passwd` is rejected with the fixed
message and the trace stops before any network gate. -/
theorem fetch_url_scheme_gate_witness :
    (fetch_url fileSchemeEnv "file:///etc/passwd").1 =
      Except.error "Only http and https schemes are allowed" ∧
    (fetch_url fileSchemeEnv "file:///etc/passwd").2 =
      [Event.parseAttempted, Event.schemeChecked "file"] :=
  (fetch_url_scheme_gate fileSchemeEnv "file:///etc/passwd"
      { scheme := "file", rest := "/etc/passwd" } rfl).1 (by decide) (by decide)

/-- Claim C3: when every gate passes and the status is in 200-299,
`fetch_url` returns exactly the decoded body; when decoding the body
fails it returns the distinct "Failed to read response body" error. -/
theorem fetch_url_success_body (env : NetEnv) (url : String) (parsed : ParsedUrl)
    (resp : HttpResponse)
    (h : env.parse url = Except.ok parsed)
    (hs : parsed.scheme = "http" ∨ parsed.scheme = "https")
    (hb : env.buildClient fetchCfg = Except.ok ())
    (hsend : env.send fetchCfg parsed = Except.ok resp)
    (hst : 200 ≤ resp.status ∧ resp.status ≤ 299) :
    (∀ b, resp.text = Except.ok b → (fetch_url env url).1 = Except.ok b) ∧
    (∀ e, resp.text = Except.error e →
      (fetch_url env url).1 = Except.error ("Failed to read response body: " ++ e)) := by
  rw [fetch_url_parse_ok env url parsed h hs]
  unfold fetchAfterScheme
  constructor
  · intro b hbb
    simp [hb, hsend, hst, hbb]
  · intro e he
    simp [hb, hsend, hst, he]

/-- Witness for C3: a 200 endpoint with body "ok" yields exactly "ok". -/
theorem fetch_url_success_body_witness :
    (fetch_url okEnv "https://example.com/").1 = Except.ok "ok" :=
  (fetch_url_success_body okEnv "https://example.com/" okParsed
      { status := 200, text := Except.ok "ok" } rfl (Or.inr rfl) rfl rfl
      (by decide)).1 "ok" rfl

/-- Claim C4: a response status outside 200-299 yields the
"Request failed with status {code}" error carrying the numeric code, and
the body-read gate is never evaluated, so the body is discarded and never
returned. -/
theorem fetch_url_status_failure (env : NetEnv) (url : String) (parsed : ParsedUrl)
    (resp : HttpResponse)
    (h : env.parse url = Except.ok parsed)
    (hs : parsed.scheme = "http" ∨ parsed.scheme = "https")
    (hb : env.buildClient fetchCfg = Except.ok ())
    (hsend : env.send fetchCfg parsed = Except.ok resp)
    (hst : ¬ (200 ≤ resp.status ∧ resp.status ≤ 299)) :
    (fetch_url env url).1 =
      Except.error ("Request failed with status " ++ toString resp.status) ∧
    Event.bodyReadAttempted ∉ (fetch_url env url).2 := by
  rw [fetch_url_parse_ok env url parsed h hs]
  unfold fetchAfterScheme
  simp [hb, hsend, hst]

/-- Witness for C4: a 404 endpoint produces the status error with the
code 404 and the body gate never runs. -/
theorem fetch_url_status_failure_witness :
    (fetch_url notFoundEnv "https://example.com/missing").1 =
      Except.error ("Request failed with status " ++ toString 404) ∧
    Event.bodyReadAttempted ∉ (fetch_url notFoundEnv "https://example.com/missing").2 :=
  fetch_url_status_failure notFoundEnv "https://example.com/missing"
    { scheme := "https", rest := "example.com/missing" }
    { status := 404, text := Except.ok "gone" } rfl (Or.inr rfl) rfl rfl (by decide)

/-- Claim C7: past the scheme gate the client is configured with a 20
second timeout and the fixed user agent - every build event in the trace
carries exactly that configuration - and a build failure yields the
distinct "Failed to build HTTP client" error with the trace stopping at
the build gate, so no request is sent. -/
theorem fetch_url_client_config (env : NetEnv) (url : String) (parsed : ParsedUrl)
    (h : env.parse url = Except.ok parsed)
    (hs : parsed.scheme = "http" ∨ parsed.scheme = "https") :
    Event.buildAttempted { timeoutSecs := 20, userAgent := "OpenChat-WebSearch/1.0" } ∈
      (fetch_url env url).2 ∧
    (∀ cfg, Event.buildAttempted cfg ∈ (fetch_url env url).2 →
      cfg.timeoutSecs = 20 ∧ cfg.userAgent = "OpenChat-WebSearch/1.0") ∧
    (∀ e, env.buildClient fetchCfg = Except.error e →
      (fetch_url env url).1 = Except.error ("Failed to build HTTP client: " ++ e) ∧
      (fetch_url env url).2 =
        [Event.parseAttempted, Event.schemeChecked parsed.scheme,
         Event.buildAttempted fetchCfg]) := by
  rcases fetch_url_cases env url with ⟨e, hpe, _⟩ | ⟨parsed2, hp2, hrest⟩
  · rw [h] at hpe
    cases hpe
  · rw [h] at hp2
    injection hp2 with hpp
    subst hpp
    rcases hrest with ⟨h1, h2, _⟩ | ⟨_, hrest⟩
    · rcases hs with hh | hh
      · exact absurd hh h1
      · exact absurd hh h2
    · rcases hrest with ⟨e, hbe, heq⟩ | ⟨hbo, hrest⟩
      · rw [heq]
        refine ⟨by simp [fetchCfg], ?_, ?_⟩
        · intro cfg hc
          simp at hc
          simp [hc, fetchCfg]
        · intro e' he'
          rw [hbe] at he'
          injection he' with hee
          subst hee
          exact ⟨rfl, rfl⟩
      · have hbuild : ∀ e', env.buildClient fetchCfg = Except.error e' →
            (fetch_url env url).1 = Except.error ("Failed to build HTTP client: " ++ e') ∧
            (fetch_url env url).2 =
              [Event.parseAttempted, Event.schemeChecked parsed.scheme,
               Event.buildAttempted fetchCfg] := by
          intro e' he'
          rw [hbo] at he'
          cases he'
        rcases hrest with ⟨e, _, heq⟩ | ⟨resp, _, hrest2⟩
        · rw [heq] at hbuild ⊢
          refine ⟨by simp [fetchCfg], ?_, hbuild⟩
          intro cfg hc
          simp at hc
          simp [hc, fetchCfg]
        · rcases hrest2 with ⟨_, heq⟩ | ⟨_, ⟨e, _, heq⟩ | ⟨b, _, heq⟩⟩ <;>
          · rw [heq] at hbuild ⊢
            refine ⟨by simp [fetchCfg], ?_, hbuild⟩
            intro cfg hc
            simp at hc
            simp [hc, fetchCfg]

/-- Witness for C7: against a failing TLS backend the build error is
reported and the trace ends at the build gate. -/
theorem fetch_url_client_config_witness :
    (fetch_url badBuildEnv "https://example.com/").1 =
      Except.error ("Failed to build HTTP client: " ++ "tls backend init failed") ∧
    (fetch_url badBuildEnv "https://example.com/").2 =
      [Event.parseAttempted, Event.schemeChecked "https",
       Event.buildAttempted fetchCfg] :=
  (fetch_url_client_config badBuildEnv "https://example.com/" okParsed rfl
      (Or.inr rfl)).2.2 "tls backend init failed" rfl

/-- Claim C5: the gates run in the fixed order parse, scheme, build,
send, status, body: the evaluated-gate trace is always an initial
segment of `gateOrder`, so the first failing gate short-circuits every
later gate and its effect, and a success means all six gates ran. -/
theorem fetch_url_gate_order (env : NetEnv) (url : String) :
    ∃ k, k ≤ 6 ∧
      ((fetch_url env url).2).map gateOf = gateOrder.take k ∧
      (isOkB (fetch_url env url).1 = true → k = 6) := by
  rcases fetch_url_cases env url with ⟨e, _, heq⟩ | ⟨parsed, _,
    ⟨_, _, heq⟩ | ⟨_, ⟨e, _, heq⟩ | ⟨_, ⟨e, _, heq⟩ | ⟨resp, _,
      ⟨_, heq⟩ | ⟨_, ⟨e, _, heq⟩ | ⟨b, _, heq⟩⟩⟩⟩⟩⟩
  · exact ⟨1, by norm_num, by rw [heq]; rfl, by rw [heq]; intro hh; simp [isOkB] at hh⟩
  · exact ⟨2, by norm_num, by rw [heq]; rfl, by rw [heq]; intro hh; simp [isOkB] at hh⟩
  · exact ⟨3, by norm_num, by rw [heq]; rfl, by rw [heq]; intro hh; simp [isOkB] at hh⟩
  · exact ⟨4, by norm_num, by rw [heq]; rfl, by rw [heq]; intro hh; simp [isOkB] at hh⟩
  · exact ⟨5, by norm_num, by rw [heq]; rfl, by rw [heq]; intro hh; simp [isOkB] at hh⟩
  · exact ⟨6, by norm_num, by rw [heq]; rfl, fun _ => rfl⟩
  · exact ⟨6, by norm_num, by rw [heq]; rfl, fun _ => rfl⟩

/-- Claim C6: a success result is only possible when every stage
succeeded, and then the returned string is exactly the fully decoded
body: no failure is ever swallowed and no partial body accompanies an
error (the result type already makes success and error exclusive). -/
theorem fetch_url_no_silent_failure (env : NetEnv) (url : String) (b : String)
    (h : (fetch_url env url).1 = Except.ok b) :
    ∃ parsed resp,
      env.parse url = Except.ok parsed ∧
      (parsed.scheme = "http" ∨ parsed.scheme = "https") ∧
      env.buildClient fetchCfg = Except.ok () ∧
      env.send fetchCfg parsed = Except.ok resp ∧
      (200 ≤ resp.status ∧ resp.status ≤ 299) ∧
      resp.text = Except.ok b := by
  rcases fetch_url_cases env url with ⟨e, _, heq⟩ | ⟨parsed, hp,
    ⟨_, _, heq⟩ | ⟨hs, ⟨e, _, heq⟩ | ⟨hbo, ⟨e, _, heq⟩ | ⟨resp, hsend,
      ⟨_, heq⟩ | ⟨hst, ⟨e, _, heq⟩ | ⟨b2, ht, heq⟩⟩⟩⟩⟩⟩
  · rw [heq] at h; simp at h
  · rw [heq] at h; simp at h
  · rw [heq] at h; simp at h
  · rw [heq] at h; simp at h
  · rw [heq] at h; simp at h
  · rw [heq] at h; simp at h
  · rw [heq] at h
    simp at h
    subst h
    exact ⟨parsed, resp, hp, hs, hbo, hsend, hst, ht⟩

/-- Witness for C6: the success of `okEnv` certifies that every stage
succeeded and the body is the decoded text "ok". -/
theorem fetch_url_no_silent_failure_witness :
    ∃ parsed resp,
      okEnv.parse "https://example.com/" = Except.ok parsed ∧
      (parsed.scheme = "http" ∨ parsed.scheme = "https") ∧
      okEnv.buildClient fetchCfg = Except.ok () ∧
      okEnv.send fetchCfg parsed = Except.ok resp ∧
      (200 ≤ resp.status ∧ resp.status ≤ 299) ∧
      resp.text = Except.ok "ok" :=
  fetch_url_no_silent_failure okEnv "https://example.com/" "ok" rfl

/-- Claim C9: two `fetch_url` calls with the same URL against endpoints
that behave identically up to body content yield the same
success/failure classification and stop at the same gate. -/
theorem fetch_url_classification_stable (env1 env2 : NetEnv) (url : String)
    (hp : env1.parse url = env2.parse url)
    (hbc : env1.buildClient fetchCfg = env2.buildClient fetchCfg)
    (hsa : ∀ u, SendAgree (env1.send fetchCfg u) (env2.send fetchCfg u)) :
    isOkB (fetch_url env1 url).1 = isOkB (fetch_url env2 url).1 ∧
    ((fetch_url env1 url).2).map gateOf = ((fetch_url env2 url).2).map gateOf := by
  rcases hp1 : env1.parse url with e | parsed
  · have hp2 : env2.parse url = Except.error e := hp.symm.trans hp1
    simp [fetch_url, hp1, hp2]
  · have hp2 : env2.parse url = Except.ok parsed := hp.symm.trans hp1
    by_cases hs : parsed.scheme = "http" ∨ parsed.scheme = "https"
    · rw [fetch_url_parse_ok env1 url parsed hp1 hs,
          fetch_url_parse_ok env2 url parsed hp2 hs]
      unfold fetchAfterScheme
      rcases hb1 : env1.buildClient fetchCfg with e1 | u1
      · have hb2 : env2.buildClient fetchCfg = Except.error e1 := hbc.symm.trans hb1
        simp [gateOf, isOkB, hb1, hb2]
      · have hb2 : env2.buildClient fetchCfg = Except.ok u1 := hbc.symm.trans hb1
        have hag := hsa parsed
        rcases hs1 : env1.send fetchCfg parsed with e1 | r1
        · rcases hs2 : env2.send fetchCfg parsed with e2 | r2
          · simp [gateOf, isOkB, hb1, hb2, hs1, hs2]
          · rw [hs1, hs2] at hag
            simp [SendAgree] at hag
        · rcases hs2 : env2.send fetchCfg parsed with e2 | r2
          · rw [hs1, hs2] at hag
            simp [SendAgree] at hag
          · rw [hs1, hs2] at hag
            simp only [SendAgree] at hag
            by_cases hst : 200 ≤ r1.status ∧ r1.status ≤ 299
            · have hst2 : 200 ≤ r2.status ∧ r2.status ≤ 299 := hag.1 ▸ hst
              rcases ht1 : r1.text with e1 | b1
              · rcases ht2 : r2.text with e2 | b2
                · simp [gateOf, isOkB, hb1, hb2, hs1, hs2, hst, hst2, ht1, ht2]
                · have := hag.2
                  rw [ht1, ht2] at this
                  simp [isOkB] at this
              · rcases ht2 : r2.text with e2 | b2
                · have := hag.2
                  rw [ht1, ht2] at this
                  simp [isOkB] at this
                · simp [gateOf, isOkB, hb1, hb2, hs1, hs2, hst, hst2, ht1, ht2]
            · have hst2 : ¬ (200 ≤ r2.status ∧ r2.status ≤ 299) := by
                rw [← hag.1]; exact hst
              simp [gateOf, isOkB, hb1, hb2, hs1, hs2, hst, hst2]
    · have hcond := hs
      simp only [fetch_url, hp1, hp2]
      rw [if_neg hcond, if_neg hcond]
      exact ⟨rfl, rfl⟩

/-- Witness for C9: the same URL against the "ok" endpoint and against a
dynamic endpoint serving a different body classifies identically. -/
theorem fetch_url_classification_stable_witness :
    isOkB (fetch_url okEnv "https://example.com/").1 =
      isOkB (fetch_url okEnvDynamic "https://example.com/").1 ∧
    ((fetch_url okEnv "https://example.com/").2).map gateOf =
      ((fetch_url okEnvDynamic "https://example.com/").2).map gateOf :=
  fetch_url_classification_stable okEnv okEnvDynamic "https://example.com/" rfl rfl
    (fun _ => ⟨rfl, rfl⟩)

/-- Claim C10: the fixed literals of `fetch_url`: every error message is
either the exact scheme-rejection sentence or begins with one of the
five fixed prefixes of its error kind, and every client configuration
the call builds carries the user agent "OpenChat-WebSearch/1.0" (with
the 20 second timeout). -/
theorem fetch_url_fixed_literals (env : NetEnv) (url : String) :
    (∀ m, (fetch_url env url).1 = Except.error m →
      m = "Only http and https schemes are allowed" ∨
      (∃ e, m = "Invalid URL: " ++ e) ∨
      (∃ e, m = "Failed to build HTTP client: " ++ e) ∨
      (∃ e, m = "Request failed: " ++ e) ∨
      (∃ c : Nat, m = "Request failed with status " ++ toString c) ∨
      (∃ e, m = "Failed to read response body: " ++ e)) ∧
    (∀ cfg, Event.buildAttempted cfg ∈ (fetch_url env url).2 →
      cfg.userAgent = "OpenChat-WebSearch/1.0" ∧ cfg.timeoutSecs = 20) := by
  rcases fetch_url_cases env url with ⟨e, _, heq⟩ | ⟨parsed, _,
    ⟨_, _, heq⟩ | ⟨_, ⟨e, _, heq⟩ | ⟨_, ⟨e, _, heq⟩ | ⟨resp, _,
      ⟨_, heq⟩ | ⟨_, ⟨e, _, heq⟩ | ⟨b, _, heq⟩⟩⟩⟩⟩⟩
  · rw [heq]
    constructor
    · intro m hm
      simp at hm
      subst hm
      exact Or.inr (Or.inl ⟨e, rfl⟩)
    · intro cfg hc
      simp at hc
  · rw [heq]
    constructor
    · intro m hm
      simp at hm
      subst hm
      exact Or.inl rfl
    · intro cfg hc
      simp at hc
  · rw [heq]
    constructor
    · intro m hm
      simp at hm
      subst hm
      exact Or.inr (Or.inr (Or.inl ⟨e, rfl⟩))
    · intro cfg hc
      simp at hc
      simp [hc, fetchCfg]
  · rw [heq]
    constructor
    · intro m hm
      simp at hm
      subst hm
      exact Or.inr (Or.inr (Or.inr (Or.inl ⟨e, rfl⟩)))
    · intro cfg hc
      simp at hc
      simp [hc, fetchCfg]
  · rw [heq]
    constructor
    · intro m hm
      simp at hm
      subst hm
      exact Or.inr (Or.inr (Or.inr (Or.inr (Or.inl ⟨resp.status, rfl⟩))))
    · intro cfg hc
      simp at hc
      simp [hc, fetchCfg]
  · rw [heq]
    constructor
    · intro m hm
      simp at hm
      subst hm
      exact Or.inr (Or.inr (Or.inr (Or.inr (Or.inr ⟨e, rfl⟩))))
    · intro cfg hc
      simp at hc
      simp [hc, fetchCfg]
  · rw [heq]
    constructor
    · intro m hm
      simp at hm
    · intro cfg hc
      simp at hc
      simp [hc, fetchCfg]

/-- Witness for C10: the message of a parse failure carries the
Invalid-URL prefix, and the configuration events of a successful call
carry the fixed user agent and timeout. -/
theorem fetch_url_fixed_literals_witness :
    ("Invalid URL: " ++ "relative URL without a base" =
        "Only http and https schemes are allowed" ∨
      (∃ e, "Invalid URL: " ++ "relative URL without a base" = "Invalid URL: " ++ e) ∨
      (∃ e, "Invalid URL: " ++ "relative URL without a base" =
        "Failed to build HTTP client: " ++ e) ∨
      (∃ e, "Invalid URL: " ++ "relative URL without a base" = "Request failed: " ++ e) ∨
      (∃ c : Nat, "Invalid URL: " ++ "relative URL without a base" =
        "Request failed with status " ++ toString c) ∨
      (∃ e, "Invalid URL: " ++ "relative URL without a base" =
        "Failed to read response body: " ++ e)) ∧
    (fetchCfg.userAgent = "OpenChat-WebSearch/1.0" ∧ fetchCfg.timeoutSecs = 20) :=
  ⟨(fetch_url_fixed_literals badParseEnv "not a url").1
      ("Invalid URL: " ++ "relative URL without a base") rfl,
   (fetch_url_fixed_literals okEnv "https://example.com/").2 fetchCfg (by decide)⟩

end OpenChat
